import Mathlib

/-!
Verification of the App Store server-notification webhook pipeline.

The TypeScript sources are shallowly embedded. Conventions:
- JavaScript numbers that the code uses as epoch-millisecond timestamps,
  milliunit prices and counters are modelled as `Int`; the floating-point
  day-gap comparison `5 <= deltaMs / ONE_DAY_IN_MS <= 14` is modelled by the
  equivalent integer inequalities `5 * ONE_DAY_IN_MS <= deltaMs` and
  `deltaMs <= 14 * ONE_DAY_IN_MS` (exact for integer millisecond inputs).
- `x?: T` fields and values that may be `null`/`undefined`/non-string are
  modelled as `Option`; a thrown exception is an `Except.error` carrying the
  message (string literals drop the quote characters around interpolated
  values but are otherwise verbatim).
- The Upstash Redis client is modelled by an explicit key-value store with
  absolute expiry instants (`SET key value NX EX ttl` semantics); the Apple
  `SignedDataVerifier` library object and the base64url/JSON decoding of the
  unverified JWS segment are kept abstract as environment parameters.
-/

/-! ## eventClassifier.ts -/

inductive ClassifiedAction
  | PURCHASE
  | REFUND
  | IGNORE
deriving DecidableEq, Repr

def PURCHASE_NOTIFICATION_TYPES : List String :=
  ["SUBSCRIBED", "DID_RENEW", "ONE_TIME_CHARGE"]

def classifyNotificationType (notificationType : String) : ClassifiedAction :=
  if notificationType = "REFUND" then .REFUND
  else if notificationType ∈ PURCHASE_NOTIFICATION_TYPES then .PURCHASE
  else .IGNORE

/-! ## appleVerifier.ts data types -/

/-- Decoded transaction payload (`DecodedTransactionInfo`), with the fields the
lifecycle store and message builder consume. -/
structure DecodedTransactionInfo where
  productId : Option String := none
  transactionId : Option String := none
  originalTransactionId : Option String := none
  price : Option Int := none
  currency : Option String := none
  purchaseDate : Option Int := none
  originalPurchaseDate : Option Int := none
  offerDiscountType : Option String := none
  transactionReason : Option String := none
deriving DecidableEq, Repr

structure VerifiedNotification where
  notificationUUID : String
  notificationType : String
  subtype : Option String := none
  environment : String
  bundleId : String
  appAppleId : Int
  pushoverUserKey : String
  pushoverDevice : Option String := none
  signedTransactionInfo : Option String := none
  transactionInfo : Option DecodedTransactionInfo := none
deriving DecidableEq, Repr

/-! ## env.ts -/

structure AppleAppConfig where
  bundleId : Option String := none
  appAppleId : Int
  pushoverUserKey : String
  pushoverDevice : Option String := none
deriving DecidableEq, Repr

structure AppConfig where
  webhookSecret : String
  pushoverAppToken : String
  defaultPushoverUserKey : String
  defaultPushoverDevice : Option String := none
  appleApps : List AppleAppConfig
  appleEnableOnlineChecks : Bool := false
  appleRootCaDir : String := "certs/apple"
  kvRestApiUrl : String
  kvRestApiToken : String
  dedupeTtlSeconds : Int
deriving DecidableEq, Repr

def DEDUPE_TTL_SECONDS : Int := 60 * 60 * 24 * 30

/-! ## Upstash Redis model

The remote store is a map from keys to (value, absolute expiry instant in
seconds); a key whose expiry is not in the future counts as absent, which is
how Redis treats expired keys. -/

def RedisStore : Type := String → Option (String × Int)

def redisKeyLive (store : RedisStore) (key : String) (now : Int) : Bool :=
  match store key with
  | some (_, expiresAt) => decide (now < expiresAt)
  | none => false

/-- `SET key value NX EX ttlSeconds` at instant `now`: sets only if the key is
absent (or expired) and returns whether this call performed the set. -/
def redisSetNxEx (store : RedisStore) (key value : String) (ttlSeconds now : Int) :
    Bool × RedisStore :=
  if redisKeyLive store key now then (false, store)
  else (true, fun k => if k = key then some (value, now + ttlSeconds) else store k)

/-! ## dedupeStore.ts -/

def getDedupeKey (notificationUUID : String) : String :=
  "appstore:notification:" ++ notificationUUID

/-- `markNotificationAsNew`: `redis.set(key, "1", { ex: ttl, nx: true })`,
returning whether the reply was "OK" (the set happened). The remote client is
modelled by explicit store/time arguments. -/
def markNotificationAsNew (notificationUUID : String) (config : AppConfig)
    (store : RedisStore) (now : Int) : Bool × RedisStore :=
  redisSetNxEx store (getDedupeKey notificationUUID) "1" config.dedupeTtlSeconds now

/-! ## subscriptionStateStore.ts -/

def SUBSCRIPTION_STATE_TTL_SECONDS : Int := 60 * 60 * 24 * 730

def ONE_DAY_IN_MS : Int := 24 * 60 * 60 * 1000

structure SubscriptionState where
  sawFreeTrial : Bool
  didRenewCount : Int
  notificationCount : Int
  firstSeenAt : Int
  updatedAt : Int
  firstNotificationType : String
  lastNotificationType : String
  originalPurchaseDate : Option Int := none
  firstPurchaseDate : Option Int := none
  lastPurchaseDate : Option Int := none
deriving DecidableEq, Repr

inductive SubscriptionLifecycleHint
  | TRIAL_START
  | FIRST_PAID_AFTER_TRIAL
  | RENEWAL
deriving DecidableEq, Repr

def hasFreeTrial (transactionInfo : Option DecodedTransactionInfo) : Bool :=
  match transactionInfo with
  | some t => t.offerDiscountType = some "FREE_TRIAL"
  | none => false

/-- `isLikelyFirstPaidAfterTrialByDates`: both dates present, positive gap, and
gap between 5 and 14 days inclusive (integer form of the float comparison). -/
def isLikelyFirstPaidAfterTrialByDates
    (transactionInfo : Option DecodedTransactionInfo) : Bool :=
  match transactionInfo.bind (·.purchaseDate),
      transactionInfo.bind (·.originalPurchaseDate) with
  | some purchaseDate, some originalPurchaseDate =>
    let deltaMs := purchaseDate - originalPurchaseDate
    if deltaMs ≤ 0 then false
    else decide (5 * ONE_DAY_IN_MS ≤ deltaMs) && decide (deltaMs ≤ 14 * ONE_DAY_IN_MS)
  | _, _ => false

def determineLifecycleHint (notificationType : String)
    (transactionInfo : Option DecodedTransactionInfo)
    (previousState : Option SubscriptionState) :
    Option SubscriptionLifecycleHint :=
  if notificationType = "SUBSCRIBED" && hasFreeTrial transactionInfo then
    some .TRIAL_START
  else if notificationType ≠ "DID_RENEW" then
    none
  else
    let didRenewCount := (previousState.map (·.didRenewCount)).getD 0
    let previousEventWasTrial :=
      (previousState.map (·.sawFreeTrial)).getD false && didRenewCount = 0
    if previousEventWasTrial || isLikelyFirstPaidAfterTrialByDates transactionInfo then
      some .FIRST_PAID_AFTER_TRIAL
    else
      some .RENEWAL

/-- `determineSubscriptionLifecycleHint` without the Redis plumbing: the
`redis.get` + tolerant `parseSubscriptionState` is modelled by the
`previousState` argument (`none` = no key, or malformed stored data), and the
unconditional `redis.set` of the merged state by the second component of the
result (`none` = the store was skipped because `originalTransactionId` was
absent, so nothing was read or written). -/
def determineSubscriptionLifecycleHint (notificationType : String)
    (transactionInfo : Option DecodedTransactionInfo)
    (previousState : Option SubscriptionState) (now : Int) :
    Option SubscriptionLifecycleHint × Option SubscriptionState :=
  match transactionInfo.bind (·.originalTransactionId) with
  | none => (none, none)
  | some _ =>
    let lifecycleHint := determineLifecycleHint notificationType transactionInfo previousState
    let purchaseDate := transactionInfo.bind (·.purchaseDate)
    let nextState : SubscriptionState :=
      { sawFreeTrial :=
          (previousState.map (·.sawFreeTrial)).getD false ||
          hasFreeTrial transactionInfo ||
          lifecycleHint = some .FIRST_PAID_AFTER_TRIAL
        didRenewCount :=
          (previousState.map (·.didRenewCount)).getD 0 +
          (if notificationType = "DID_RENEW" then 1 else 0)
        notificationCount := (previousState.map (·.notificationCount)).getD 0 + 1
        firstSeenAt := (previousState.map (·.firstSeenAt)).getD now
        updatedAt := now
        firstNotificationType :=
          (previousState.map (·.firstNotificationType)).getD notificationType
        lastNotificationType := notificationType
        originalPurchaseDate :=
          match transactionInfo.bind (·.originalPurchaseDate) with
          | some d => some d
          | none => previousState.bind (·.originalPurchaseDate)
        firstPurchaseDate :=
          match previousState.bind (·.firstPurchaseDate) with
          | some d => some d
          | none => purchaseDate
        lastPurchaseDate :=
          match purchaseDate with
          | some d => some d
          | none => previousState.bind (·.lastPurchaseDate) }
    (lifecycleHint, some nextState)

/-! ## messageBuilder.ts -/

structure MessageInput where
  action : ClassifiedAction
  appBundleId : String
  notificationType : String
  subtype : Option String := none
  environment : String
  productId : Option String := none
  transactionId : Option String := none
  transactionReason : Option String := none
  offerDiscountType : Option String := none
  subscriptionLifecycle : Option String := none
  price : Option Int := none
  currency : Option String := none
deriving DecidableEq, Repr

structure PushoverMessage where
  title : String
  message : String
deriving DecidableEq, Repr

def shortTransactionId (transactionId : Option String) : String :=
  match transactionId with
  | none => "n/a"
  | some t =>
    if t.length ≤ 12 then t
    else t.take 6 ++ "..." ++ t.takeRight 4

/-- Renders `p / 1000` the way `Intl.NumberFormat("en-US")` with at most three
fraction digits and no grouping does for integer milliunit inputs: the exact
decimal with trailing fraction zeros stripped. -/
def formatMilliunits (p : Int) : String :=
  let sign := if p < 0 then "-" else ""
  let n := p.natAbs
  let whole := n / 1000
  let frac := n % 1000
  if frac = 0 then sign ++ toString whole
  else
    let fracStr := toString frac
    let padded := String.mk (List.replicate (3 - fracStr.length) '0') ++ fracStr
    let trimmed := String.mk (padded.data.reverse.dropWhile (· = '0')).reverse
    sign ++ toString whole ++ "." ++ trimmed

/-- `formatAmount`: absent price renders as the "n/a" sentinel; present prices
are milliunits converted to major units, with the currency appended. -/
def formatAmount (price : Option Int) (currency : Option String) : String :=
  match price with
  | none => "n/a"
  | some p =>
    match currency with
    | some c => formatMilliunits p ++ " " ++ c
    | none => formatMilliunits p

/-- One conditional `parts.push` of `prefixStr + value` guarded by JavaScript
truthiness of the optional string (absent or empty pushes nothing). -/
def optionalMessagePart (prefixStr : String) (value : Option String) : List String :=
  match value with
  | some s => if s = "" then [] else [prefixStr ++ s]
  | none => []

/-- The final conditional push: `const amount = formatAmount(...)`, appended
as an `amount=` field only when it is not the "n/a" sentinel. -/
def amountMessagePart (price : Option Int) (currency : Option String) : List String :=
  let amount := formatAmount price currency
  if amount = "n/a" then [] else ["amount=" ++ amount]

def buildPushoverParts (input : MessageInput) : List String :=
  ["app=" ++ input.appBundleId,
   "type=" ++ input.notificationType,
   "product=" ++ (input.productId.getD "n/a"),
   "env=" ++ input.environment,
   "tx=" ++ shortTransactionId input.transactionId]
  ++ optionalMessagePart "subtype=" input.subtype
  ++ optionalMessagePart "reason=" input.transactionReason
  ++ optionalMessagePart "offer=" input.offerDiscountType
  ++ optionalMessagePart "lifecycle=" input.subscriptionLifecycle
  ++ amountMessagePart input.price input.currency

def buildPushoverMessage (input : MessageInput) : PushoverMessage :=
  { title := if input.action = .PURCHASE then "In-App Kauf" else "Refund"
    message := String.intercalate " | " (buildPushoverParts input) }

/-! ## appleVerifier.ts verification flow

The Apple `SignedDataVerifier` library object is abstracted to its two
methods (each returning the decoded payload or the thrown error message), and
verifier construction to a factory from (bundle id, app Apple id,
environment). The base64url/JSON decoding of the unverified JWS middle
segment (`extractBundleIdFromSignedPayload`) is kept abstract as an
`extractBundleId` parameter. The process-wide verifier cache only memoizes
this construction, so it is dropped from the pure model. -/

inductive AppleEnvironment
  | production
  | sandbox
deriving DecidableEq, Repr

/-- Decoded notification envelope payload, with the fields the verifier reads.
Absent-or-not-a-string JSON values are `none`. -/
structure NotificationData where
  bundleId : Option String := none
  environment : Option String := none
  signedTransactionInfo : Option String := none
deriving DecidableEq, Repr

structure NotificationPayload where
  notificationUUID : Option String := none
  notificationType : Option String := none
  subtype : Option String := none
  bundleId : Option String := none
  environment : Option String := none
  data : Option NotificationData := none
deriving DecidableEq, Repr

structure SignedDataVerifier where
  verifyAndDecodeNotification : String → Except String NotificationPayload
  verifyAndDecodeTransaction : String → Except String DecodedTransactionInfo

def VerifierFactory : Type :=
  String → Int → AppleEnvironment → SignedDataVerifier

def ensureString (value : Option String) (field : String) : Except String String :=
  match value with
  | some s => if s = "" then .error ("Apple payload is missing required field " ++ field ++ ".") else .ok s
  | none => .error ("Apple payload is missing required field " ++ field ++ ".")

/-- JavaScript `String.prototype.trim`, written over the character list so
that it reduces during evaluation. -/
def trimString (s : String) : String :=
  String.mk (((s.data.dropWhile Char.isWhitespace).reverse.dropWhile
    Char.isWhitespace).reverse)

def optionalNonEmptyString (value : Option String) : Option String :=
  match value with
  | some s => if trimString s = "" then none else some (trimString s)
  | none => none

def ensureBundleIdMatches (expectedBundleId : Option String) (bundleId : String) :
    Except String Unit :=
  match expectedBundleId with
  | some expected =>
    if bundleId ≠ expected then
      .error ("Bundle ID mismatch. Expected " ++ expected ++ " but got " ++ bundleId ++ ".")
    else .ok ()
  | none => .ok ()

def decodeTransactionInfo (verifier : SignedDataVerifier)
    (signedTransactionInfo : Option String) :
    Except String (Option DecodedTransactionInfo) :=
  match signedTransactionInfo with
  | none => .ok none
  | some s => (verifier.verifyAndDecodeTransaction s).map some

/-- The `for (const verifier of [verifiers.production, verifiers.sandbox])`
loop: first environment whose raw verification and decoding succeeds wins;
the second component is the last caught error (set by either failed
attempt). -/
def attemptEnvironments (factory : VerifierFactory) (bundleIdForVerifier : String)
    (appAppleId : Int) (signedPayload : String) :
    Option (SignedDataVerifier × NotificationPayload) × Option String :=
  let productionVerifier := factory bundleIdForVerifier appAppleId .production
  let sandboxVerifier := factory bundleIdForVerifier appAppleId .sandbox
  match productionVerifier.verifyAndDecodeNotification signedPayload with
  | .ok payload => (some (productionVerifier, payload), none)
  | .error productionError =>
    match sandboxVerifier.verifyAndDecodeNotification signedPayload with
    | .ok payload => (some (sandboxVerifier, payload), some productionError)
    | .error sandboxError => (none, some sandboxError)

/-- Outcome of one iteration of the tenant loop: `success` returns from the
function, `skip` falls through to the next tenant recording the last error,
and `abort` is an uncaught throw that ends the whole resolution. -/
inductive TryAppResult
  | success (vn : VerifiedNotification)
  | skip (lastError : Option String)
  | abort (e : String)
deriving Repr

def tryApp (factory : VerifierFactory) (extractBundleId : String → Option String)
    (app : AppleAppConfig) (signedPayload : String) : TryAppResult :=
  let bundleIdForVerifier :=
    match app.bundleId with
    | some b => some b
    | none => extractBundleId signedPayload
  match bundleIdForVerifier with
  | none => .skip (some "Could not determine bundleId for verification. Set APPLE_BUNDLE_ID or provide bundleId in APPLE_APPS_JSON.")
  | some bundleIdForVerifier =>
    match attemptEnvironments factory bundleIdForVerifier app.appAppleId signedPayload with
    | (none, lastError) => .skip lastError
    | (some (usedVerifier, decodedPayload), _) =>
      match ensureString decodedPayload.notificationUUID "notificationUUID" with
      | .error e => .abort e
      | .ok notificationUUID =>
      match ensureString decodedPayload.notificationType "notificationType" with
      | .error e => .abort e
      | .ok notificationType =>
      let data := decodedPayload.data
      let resolvedBundleId :=
        match optionalNonEmptyString decodedPayload.bundleId with
        | some b => some b
        | none => optionalNonEmptyString (data.bind (·.bundleId))
      match resolvedBundleId with
      | none => .abort "Apple payload is missing required field bundleId (expected at payload.bundleId or payload.data.bundleId)."
      | some bundleId =>
      match ensureBundleIdMatches app.bundleId bundleId with
      | .error e => .abort e
      | .ok _ =>
      let signedTransactionInfo := data.bind (·.signedTransactionInfo)
      match decodeTransactionInfo usedVerifier signedTransactionInfo with
      | .error e => .abort e
      | .ok transactionInfo =>
        .success
          { notificationUUID
            notificationType
            subtype := decodedPayload.subtype
            environment :=
              (match optionalNonEmptyString decodedPayload.environment with
               | some e => some e
               | none => optionalNonEmptyString (data.bind (·.environment))).getD "UNKNOWN"
            bundleId
            appAppleId := app.appAppleId
            pushoverUserKey := app.pushoverUserKey
            pushoverDevice := app.pushoverDevice
            signedTransactionInfo
            transactionInfo }

def verifyAppleNotificationGo (factory : VerifierFactory)
    (extractBundleId : String → Option String) (signedPayload : String) :
    List AppleAppConfig → Option String → Except String VerifiedNotification
  | [], lastError => .error (lastError.getD "Unable to verify Apple signed payload.")
  | app :: rest, lastError =>
    match tryApp factory extractBundleId app signedPayload with
    | .success vn => .ok vn
    | .abort e => .error e
    | .skip e =>
      verifyAppleNotificationGo factory extractBundleId signedPayload rest
        (match e with | some e => some e | none => lastError)

def verifyAppleNotification (factory : VerifierFactory)
    (extractBundleId : String → Option String) (signedPayload : String)
    (config : AppConfig) : Except String VerifiedNotification :=
  verifyAppleNotificationGo factory extractBundleId signedPayload config.appleApps none

/-! ## webhookHandler.ts

The transport shell (`readQueryParam` over the query object, `getSignedPayload`
over a possibly-stringified JSON body) is excluded by the specification as the
transport wrapper; the request carries their already-extracted `Option`
results. Each awaited dependency is modelled by the outcome it produces for
this request: `loadConfig` and `verifyNotification` as `Except` results, the
dedupe store by the Redis model plus a flag for a thrown store error, and the
Pushover call by a failure flag. The outcome records the response, how many
times each external call was made, the resulting store, and the messages
actually delivered. -/

structure WebhookRequest where
  method : Option String
  secret : Option String
  signedPayload : Option String

structure WebhookResultBody where
  ok : Bool
  error : Option String := none
  ignored : Bool := false
  deduped : Bool := false
deriving DecidableEq, Repr

structure WebhookResponse where
  statusCode : Nat
  body : WebhookResultBody
deriving DecidableEq, Repr

structure WebhookDeps where
  loadConfig : Except String AppConfig
  verifyNotification : Except String VerifiedNotification
  dedupeStoreFails : Bool := false
  pushoverFails : Bool := false

structure WebhookOutcome where
  response : WebhookResponse
  pushCalls : Nat
  markCalls : Nat
  store : RedisStore
  sentMessages : List PushoverMessage

def webhookHandler (deps : WebhookDeps) (request : WebhookRequest)
    (store : RedisStore) (now : Int) : WebhookOutcome :=
  if request.method ≠ some "POST" then
    { response := ⟨405, { ok := false, error := some "method_not_allowed" }⟩
      pushCalls := 0, markCalls := 0, store, sentMessages := [] }
  else
    match deps.loadConfig with
    | .error _ =>
      { response := ⟨500, { ok := false, error := some "invalid_configuration" }⟩
        pushCalls := 0, markCalls := 0, store, sentMessages := [] }
    | .ok config =>
      if request.secret ≠ some config.webhookSecret then
        { response := ⟨404, { ok := false, error := some "not_found" }⟩
          pushCalls := 0, markCalls := 0, store, sentMessages := [] }
      else
        match request.signedPayload with
        | none =>
          { response := ⟨400, { ok := false, error := some "invalid_payload" }⟩
            pushCalls := 0, markCalls := 0, store, sentMessages := [] }
        | some _ =>
          match deps.verifyNotification with
          | .error _ =>
            { response := ⟨400, { ok := false, error := some "invalid_signature" }⟩
              pushCalls := 0, markCalls := 0, store, sentMessages := [] }
          | .ok verified =>
            let eventAction := classifyNotificationType verified.notificationType
            if eventAction = .IGNORE then
              { response := ⟨200, { ok := true, ignored := true }⟩
                pushCalls := 0, markCalls := 0, store, sentMessages := [] }
            else if deps.dedupeStoreFails then
              { response := ⟨500, { ok := false, error := some "internal_error" }⟩
                pushCalls := 0, markCalls := 1, store, sentMessages := [] }
            else
              let marked := markNotificationAsNew verified.notificationUUID config store now
              if !marked.1 then
                { response := ⟨200, { ok := true, deduped := true }⟩
                  pushCalls := 0, markCalls := 1, store := marked.2, sentMessages := [] }
              else
                let message := buildPushoverMessage
                  { action := eventAction
                    appBundleId := verified.bundleId
                    notificationType := verified.notificationType
                    environment := verified.environment
                    productId := verified.transactionInfo.bind (·.productId)
                    transactionId := verified.transactionInfo.bind (·.transactionId)
                    price := verified.transactionInfo.bind (·.price)
                    currency := verified.transactionInfo.bind (·.currency) }
                if deps.pushoverFails then
                  { response := ⟨500, { ok := false, error := some "internal_error" }⟩
                    pushCalls := 1, markCalls := 1, store := marked.2, sentMessages := [] }
                else
                  { response := ⟨200, { ok := true }⟩
                    pushCalls := 1, markCalls := 1, store := marked.2
                    sentMessages := [message] }

/-! ## Orchestrator with lifecycle inference (spec-modelled) -/

def hintToString : SubscriptionLifecycleHint → String
  | .TRIAL_START => "TRIAL_START"
  | .FIRST_PAID_AFTER_TRIAL => "FIRST_PAID_AFTER_TRIAL"
  | .RENEWAL => "RENEWAL"

inductive PipelineEvent
  | markCall
  | lifecycleCall
  | pushCall
deriving DecidableEq, Repr

structure WebhookDepsL where
  loadConfig : Except String AppConfig
  verifyNotification : Except String VerifiedNotification
  dedupeStoreFails : Bool := false
  pushoverFails : Bool := false
  lifecycleResult : Except String (Option SubscriptionLifecycleHint)

structure WebhookOutcomeL where
  response : WebhookResponse
  events : List PipelineEvent
  store : RedisStore
  sentMessages : List PushoverMessage

/-- Message input for a new, actionable notification, with the lifecycle hint
attached as the `subscriptionLifecycle` decoration. -/
def lifecycleMessageInput (eventAction : ClassifiedAction)
    (verified : VerifiedNotification) (hint : Option SubscriptionLifecycleHint) :
    MessageInput :=
  { action := eventAction
    appBundleId := verified.bundleId
    notificationType := verified.notificationType
    subtype := verified.subtype
    environment := verified.environment
    productId := verified.transactionInfo.bind (·.productId)
    transactionId := verified.transactionInfo.bind (·.transactionId)
    transactionReason := verified.transactionInfo.bind (·.transactionReason)
    offerDiscountType := verified.transactionInfo.bind (·.offerDiscountType)
    subscriptionLifecycle := hint.map hintToString
    price := verified.transactionInfo.bind (·.price)
    currency := verified.transactionInfo.bind (·.currency) }

/-- Modelled from the spec: the repository snapshot ships the tests that
exercise the lifecycle-aware orchestrator (tests/webhook.test.ts passes a
`determineSubscriptionLifecycleHint` dependency to `createWebhookHandler` and
expects a `lifecycle=` message part), but not that orchestrator's source
itself. Following spec section 4.6, the pipeline is
decode → classify → dedup-check → lifecycle-infer (best-effort) → notify,
where the lifecycle consultation happens between the dedup check and the push
send, its hint is optional decoration on the alert, and a lifecycle-store
failure is tolerated without changing the terminal status. `events` records
the external calls in order. -/
def webhookHandlerWithLifecycle (deps : WebhookDepsL) (request : WebhookRequest)
    (store : RedisStore) (now : Int) : WebhookOutcomeL :=
  if request.method ≠ some "POST" then
    { response := ⟨405, { ok := false, error := some "method_not_allowed" }⟩
      events := [], store, sentMessages := [] }
  else
    match deps.loadConfig with
    | .error _ =>
      { response := ⟨500, { ok := false, error := some "invalid_configuration" }⟩
        events := [], store, sentMessages := [] }
    | .ok config =>
      if request.secret ≠ some config.webhookSecret then
        { response := ⟨404, { ok := false, error := some "not_found" }⟩
          events := [], store, sentMessages := [] }
      else
        match request.signedPayload with
        | none =>
          { response := ⟨400, { ok := false, error := some "invalid_payload" }⟩
            events := [], store, sentMessages := [] }
        | some _ =>
          match deps.verifyNotification with
          | .error _ =>
            { response := ⟨400, { ok := false, error := some "invalid_signature" }⟩
              events := [], store, sentMessages := [] }
          | .ok verified =>
            let eventAction := classifyNotificationType verified.notificationType
            if eventAction = .IGNORE then
              { response := ⟨200, { ok := true, ignored := true }⟩
                events := [], store, sentMessages := [] }
            else if deps.dedupeStoreFails then
              { response := ⟨500, { ok := false, error := some "internal_error" }⟩
                events := [.markCall], store, sentMessages := [] }
            else
              let marked := markNotificationAsNew verified.notificationUUID config store now
              if !marked.1 then
                { response := ⟨200, { ok := true, deduped := true }⟩
                  events := [.markCall], store := marked.2, sentMessages := [] }
              else
                let hint :=
                  match deps.lifecycleResult with
                  | .ok h => h
                  | .error _ => none
                let message := buildPushoverMessage
                  (lifecycleMessageInput eventAction verified hint)
                if deps.pushoverFails then
                  { response := ⟨500, { ok := false, error := some "internal_error" }⟩
                    events := [.markCall, .lifecycleCall, .pushCall]
                    store := marked.2, sentMessages := [] }
                else
                  { response := ⟨200, { ok := true }⟩
                    events := [.markCall, .lifecycleCall, .pushCall]
                    store := marked.2, sentMessages := [message] }


/-! ## Theorems and witnesses -/

/-- Restatement of the lifecycle-hint determination exactly as the
specification words it, to be compared with `determineLifecycleHint`:
subscribe with a free-trial discount is a trial start; a renewal is a first
paid conversion exactly when the prior state shows a trial seen with zero
renewals recorded, or the purchase-date gap is positive and between 5 and 14
days inclusive, and an ordinary renewal otherwise; any other event type
yields no hint. -/
def lifecycleHintClaimed (notificationType : String)
    (transactionInfo : Option DecodedTransactionInfo)
    (previousState : Option SubscriptionState) :
    Option SubscriptionLifecycleHint :=
  if notificationType = "SUBSCRIBED" ∧
      transactionInfo.bind (·.offerDiscountType) = some "FREE_TRIAL" then
    some .TRIAL_START
  else if notificationType = "DID_RENEW" then
    let trialSeenNoRenewals :=
      match previousState with
      | some s => s.sawFreeTrial && s.didRenewCount = 0
      | none => false
    let gapInTrialWindow :=
      match transactionInfo.bind (·.purchaseDate),
          transactionInfo.bind (·.originalPurchaseDate) with
      | some purchaseDate, some originalPurchaseDate =>
        decide (0 < purchaseDate - originalPurchaseDate) &&
        decide (5 * ONE_DAY_IN_MS ≤ purchaseDate - originalPurchaseDate) &&
        decide (purchaseDate - originalPurchaseDate ≤ 14 * ONE_DAY_IN_MS)
      | _, _ => false
    if trialSeenNoRenewals || gapInTrialWindow then some .FIRST_PAID_AFTER_TRIAL
    else some .RENEWAL
  else none

theorem hasFreeTrial_eq_decide (ti : Option DecodedTransactionInfo) :
    hasFreeTrial ti = decide (ti.bind (·.offerDiscountType) = some "FREE_TRIAL") := by
  cases ti <;> simp [hasFreeTrial]

theorem isLikely_eq (ti : Option DecodedTransactionInfo) :
    isLikelyFirstPaidAfterTrialByDates ti =
      (match ti.bind (·.purchaseDate), ti.bind (·.originalPurchaseDate) with
       | some pd, some opd =>
         decide (0 < pd - opd) && decide (5 * ONE_DAY_IN_MS ≤ pd - opd) &&
         decide (pd - opd ≤ 14 * ONE_DAY_IN_MS)
       | _, _ => false) := by
  unfold isLikelyFirstPaidAfterTrialByDates
  cases hpd : ti.bind (·.purchaseDate) with
  | none => rfl
  | some pd =>
    cases hopd : ti.bind (·.originalPurchaseDate) with
    | none => rfl
    | some opd =>
      by_cases hd : pd - opd ≤ 0
      · have h0 : ¬ (0 < pd - opd) := by omega
        simp [hd, h0]
      · have h0 : 0 < pd - opd := by omega
        simp [hd, h0]

/-- C1: for every notification type, transaction info and prior subscription
state, `determineLifecycleHint` computes exactly the case analysis the
specification describes: SUBSCRIBED with a FREE_TRIAL offer discount gives
TRIAL_START; DID_RENEW gives FIRST_PAID_AFTER_TRIAL exactly when the prior
state shows a trial seen with zero renewals or the purchase-date gap is
positive and in [5, 14] days, and RENEWAL otherwise; any other type gives no
hint. -/
theorem determineLifecycleHint_matches_claim
    (notificationType : String) (transactionInfo : Option DecodedTransactionInfo)
    (previousState : Option SubscriptionState) :
    determineLifecycleHint notificationType transactionInfo previousState =
      lifecycleHintClaimed notificationType transactionInfo previousState := by
  unfold determineLifecycleHint lifecycleHintClaimed
  rw [hasFreeTrial_eq_decide, isLikely_eq]
  by_cases h1 : notificationType = "SUBSCRIBED" ∧
      transactionInfo.bind (·.offerDiscountType) = some "FREE_TRIAL"
  · simp [h1.1, h1.2]
  · have hcode : (decide (notificationType = "SUBSCRIBED") &&
        decide (transactionInfo.bind (·.offerDiscountType) = some "FREE_TRIAL")) = false := by
      simp only [Bool.and_eq_false_iff, decide_eq_false_iff_not]
      tauto
    rw [hcode]
    simp only [Bool.false_eq_true, if_false, if_neg h1]
    by_cases h2 : notificationType = "DID_RENEW"
    · simp only [h2, ne_eq, not_true_eq_false, if_false, if_pos rfl]
      have hguard :
          (((Option.map (·.sawFreeTrial) previousState).getD false &&
            decide ((Option.map (·.didRenewCount) previousState).getD 0 = 0)) : Bool) =
          (match previousState with
           | some s => s.sawFreeTrial && decide (s.didRenewCount = 0)
           | none => false) := by
        cases previousState <;> simp
      rw [hguard]
      simp
    · simp [h2]

/-- C2: the first `markNotificationAsNew` call for a fresh notification id
returns true and sets the dedup key with a 30-day (2592000 s) TTL; a second
call within the retention window returns false and leaves the store
untouched; once the TTL has expired a call returns true again. -/
theorem markNotificationAsNew_idempotency (notificationUUID : String)
    (config : AppConfig) (store : RedisStore) (t tDup tLater : Int)
    (hTtl : config.dedupeTtlSeconds = DEDUPE_TTL_SECONDS)
    (hFresh : redisKeyLive store (getDedupeKey notificationUUID) t = false)
    (_hDup1 : t ≤ tDup) (hDup2 : tDup < t + 2592000) (hLater : t + 2592000 ≤ tLater) :
    (markNotificationAsNew notificationUUID config store t).1 = true ∧
    (markNotificationAsNew notificationUUID config store t).2
        (getDedupeKey notificationUUID) = some ("1", t + 2592000) ∧
    (markNotificationAsNew notificationUUID config
        (markNotificationAsNew notificationUUID config store t).2 tDup).1 = false ∧
    (markNotificationAsNew notificationUUID config
        (markNotificationAsNew notificationUUID config store t).2 tDup).2
      = (markNotificationAsNew notificationUUID config store t).2 ∧
    (markNotificationAsNew notificationUUID config
        (markNotificationAsNew notificationUUID config store t).2 tLater).1 = true := by
  have hT : config.dedupeTtlSeconds = 2592000 := by rw [hTtl]; rfl
  unfold markNotificationAsNew redisSetNxEx
  rw [hFresh, hT]
  have hKey : redisKeyLive
      (fun k => if k = getDedupeKey notificationUUID
        then some ("1", t + 2592000) else store k)
      (getDedupeKey notificationUUID) tDup = true := by
    unfold redisKeyLive
    simp only [if_pos rfl]
    simpa using hDup2
  have hKeyLater : redisKeyLive
      (fun k => if k = getDedupeKey notificationUUID
        then some ("1", t + 2592000) else store k)
      (getDedupeKey notificationUUID) tLater = false := by
    unfold redisKeyLive
    simp only [if_pos rfl]
    simpa using (by omega : ¬ tLater < t + 2592000)
  simp [hKey, hKeyLater]

/-- Concrete configuration mirroring the one the unit tests construct. -/
def testConfig : AppConfig :=
  { webhookSecret := "super-secret"
    pushoverAppToken := "pushover-app-token"
    defaultPushoverUserKey := "pushover-user-key"
    appleApps := [{ bundleId := some "com.example.app", appAppleId := 1234567890,
                    pushoverUserKey := "pushover-user-key" }]
    kvRestApiUrl := "https://example.upstash.io"
    kvRestApiToken := "upstash-token"
    dedupeTtlSeconds := DEDUPE_TTL_SECONDS }

def emptyStore : RedisStore := fun _ => none

theorem markNotificationAsNew_idempotency_witness :
    redisKeyLive emptyStore (getDedupeKey "uuid-1") 0 = false ∧
    ((markNotificationAsNew "uuid-1" testConfig emptyStore 0).1 = true ∧
     (markNotificationAsNew "uuid-1" testConfig emptyStore 0).2
         (getDedupeKey "uuid-1") = some ("1", 0 + 2592000) ∧
     (markNotificationAsNew "uuid-1" testConfig
         (markNotificationAsNew "uuid-1" testConfig emptyStore 0).2 100).1 = false ∧
     (markNotificationAsNew "uuid-1" testConfig
         (markNotificationAsNew "uuid-1" testConfig emptyStore 0).2 100).2
       = (markNotificationAsNew "uuid-1" testConfig emptyStore 0).2 ∧
     (markNotificationAsNew "uuid-1" testConfig
         (markNotificationAsNew "uuid-1" testConfig emptyStore 0).2 2592000).1 = true) :=
  ⟨by decide, markNotificationAsNew_idempotency "uuid-1" testConfig emptyStore 0 100 2592000
      rfl (by decide) (by decide) (by decide) (by decide)⟩

/-- C8 counterexample: the ledger key for notification id "uuid-1" is not the
bare string "notification:uuid-1" the claim describes. -/
theorem getDedupeKey_not_bare_counterexample :
    getDedupeKey "uuid-1" ≠ "notification:" ++ "uuid-1" := by decide

/-- C8 (amended): the dedup ledger key written and checked by
`markNotificationAsNew` for a notification id u is exactly the string
"appstore:notification:" followed by u. -/
theorem getDedupeKey_spec (u : String) (config : AppConfig) (store : RedisStore)
    (now : Int) :
    getDedupeKey u = "appstore:notification:" ++ u ∧
    markNotificationAsNew u config store now =
      redisSetNxEx store ("appstore:notification:" ++ u) "1"
        config.dedupeTtlSeconds now :=
  ⟨rfl, rfl⟩

/-- C10: whenever the stored prior state parses successfully, the persisted
`didRenewCount` is the prior count plus one exactly for DID_RENEW events and
the prior count otherwise, so it never decreases across an update. -/
theorem didRenewCount_update (notificationType : String)
    (transactionInfo : Option DecodedTransactionInfo)
    (prior : SubscriptionState) (now : Int) (written : SubscriptionState)
    (hWrite : (determineSubscriptionLifecycleHint notificationType transactionInfo
        (some prior) now).2 = some written) :
    written.didRenewCount =
      prior.didRenewCount + (if notificationType = "DID_RENEW" then 1 else 0) ∧
    prior.didRenewCount ≤ written.didRenewCount := by
  unfold determineSubscriptionLifecycleHint at hWrite
  cases hOtx : transactionInfo.bind (·.originalTransactionId) with
  | none => rw [hOtx] at hWrite; simp at hWrite
  | some otx =>
    rw [hOtx] at hWrite
    simp only [Option.some.injEq] at hWrite
    subst hWrite
    constructor
    · simp
    · by_cases h : notificationType = "DID_RENEW" <;> simp [h]

def testPriorState : SubscriptionState :=
  { sawFreeTrial := true
    didRenewCount := 0
    notificationCount := 1
    firstSeenAt := 0
    updatedAt := 0
    firstNotificationType := "SUBSCRIBED"
    lastNotificationType := "SUBSCRIBED" }

def testRenewTransactionInfo : DecodedTransactionInfo :=
  { originalTransactionId := some "otx-2"
    purchaseDate := some 1700604800000
    originalPurchaseDate := some 1700000000000 }

theorem didRenewCount_update_witness :
    (determineSubscriptionLifecycleHint "DID_RENEW" (some testRenewTransactionInfo)
        (some testPriorState) 1700604800000).2.isSome = true ∧
    ∀ written,
      (determineSubscriptionLifecycleHint "DID_RENEW" (some testRenewTransactionInfo)
          (some testPriorState) 1700604800000).2 = some written →
      written.didRenewCount =
        testPriorState.didRenewCount + (if "DID_RENEW" = "DID_RENEW" then 1 else 0) ∧
      testPriorState.didRenewCount ≤ written.didRenewCount :=
  ⟨by decide, fun written h =>
    didRenewCount_update "DID_RENEW" (some testRenewTransactionInfo)
      testPriorState 1700604800000 written h⟩

/-- Two strings whose character lists are incomparable under the list-prefix
order stay different after appending arbitrary suffixes. -/
theorem append_ne_of_incomparable (p q x s : String)
    (h1 : ¬ (p.data <+: q.data)) (h2 : ¬ (q.data <+: p.data)) :
    p ++ x ≠ q ++ s := by
  intro h
  have hd := congrArg String.data h
  rw [String.data_append, String.data_append] at hd
  rcases List.append_eq_append_iff.mp hd with ⟨a, ha, _⟩ | ⟨c, hc, _⟩
  · exact h1 ⟨a, ha.symm⟩
  · exact h2 ⟨c, hc.symm⟩

theorem mem_optionalMessagePart {x pre : String} {v : Option String}
    (h : x ∈ optionalMessagePart pre v) : ∃ s, x = pre ++ s := by
  cases v with
  | none => simp [optionalMessagePart] at h
  | some s =>
    by_cases hs : s = ""
    · simp [optionalMessagePart, hs] at h
    · simp [optionalMessagePart, hs] at h
      exact ⟨s, h⟩

/-- Message input of the repository's own unit test for the amount format:
price 29990 milliunits, currency EUR. -/
def pricedTestInput : MessageInput :=
  { action := .PURCHASE
    appBundleId := "com.example.app"
    notificationType := "DID_RENEW"
    environment := "Production"
    productId := some "com.example.yearly"
    transactionId := some "1000001234567890"
    price := some 29990
    currency := some "EUR" }

/-- C9: a price of 29990 minor units with currency EUR renders as the amount
string "29.99 EUR" and appears as the amount field of the built message, and
whenever the price is absent no field of the built message is an amount
field. -/
theorem amount_formatting :
    (formatAmount (some 29990) (some "EUR") = "29.99 EUR" ∧
     "amount=" ++ "29.99 EUR" ∈ buildPushoverParts pricedTestInput) ∧
    (∀ (input : MessageInput), input.price = none →
      ∀ s, ("amount=" ++ s) ∉ buildPushoverParts input) := by
  refine ⟨⟨by decide, by decide⟩, ?_⟩
  intro input hp s hmem
  have hamount : amountMessagePart input.price input.currency = [] := by
    rw [hp]; rfl
  simp only [buildPushoverParts, hamount, List.append_nil,
    List.mem_append, List.mem_cons, List.not_mem_nil, or_false] at hmem
  rcases hmem with ((((h | h | h | h | h) | h) | h) | h) | h
  · exact append_ne_of_incomparable "amount=" "app=" s input.appBundleId
      (by decide) (by decide) h
  · exact append_ne_of_incomparable "amount=" "type=" s input.notificationType
      (by decide) (by decide) h
  · exact append_ne_of_incomparable "amount=" "product=" s (input.productId.getD "n/a")
      (by decide) (by decide) h
  · exact append_ne_of_incomparable "amount=" "env=" s input.environment
      (by decide) (by decide) h
  · exact append_ne_of_incomparable "amount=" "tx=" s (shortTransactionId input.transactionId)
      (by decide) (by decide) h
  · obtain ⟨s2, hs2⟩ := mem_optionalMessagePart h
    exact append_ne_of_incomparable "amount=" "subtype=" s s2 (by decide) (by decide) hs2
  · obtain ⟨s2, hs2⟩ := mem_optionalMessagePart h
    exact append_ne_of_incomparable "amount=" "reason=" s s2 (by decide) (by decide) hs2
  · obtain ⟨s2, hs2⟩ := mem_optionalMessagePart h
    exact append_ne_of_incomparable "amount=" "offer=" s s2 (by decide) (by decide) hs2
  · obtain ⟨s2, hs2⟩ := mem_optionalMessagePart h
    exact append_ne_of_incomparable "amount=" "lifecycle=" s s2 (by decide) (by decide) hs2

/-- Message input of the repository's second amount unit test: no price. -/
def unpricedTestInput : MessageInput :=
  { action := .PURCHASE
    appBundleId := "com.example.app"
    notificationType := "DID_RENEW"
    environment := "Production"
    productId := some "com.example.yearly"
    transactionId := some "1000001234567890" }

theorem amount_formatting_witness :
    unpricedTestInput.price = none ∧
    ("amount=" ++ "29.99 EUR") ∉ buildPushoverParts unpricedTestInput :=
  ⟨rfl, amount_formatting.2 unpricedTestInput rfl "29.99 EUR"⟩

/-- C5: for a request that decodes successfully — (1) purchase/refund class
and a first-time UUID terminates 200 PUSHED with exactly one push call and
the dedup key set; (2) a replayed UUID terminates 200 DEDUPED with zero push
calls; (3) an unclassified type terminates 200 IGNORED with zero dedup
writes and zero push calls. -/
theorem webhook_terminal_outcomes :
    (∀ (deps : WebhookDeps) (request : WebhookRequest) (store : RedisStore)
        (now : Int) (config : AppConfig) (verified : VerifiedNotification)
        (payload : String),
      deps.loadConfig = .ok config →
      request.method = some "POST" →
      request.secret = some config.webhookSecret →
      request.signedPayload = some payload →
      deps.verifyNotification = .ok verified →
      classifyNotificationType verified.notificationType ≠ .IGNORE →
      deps.dedupeStoreFails = false →
      deps.pushoverFails = false →
      redisKeyLive store (getDedupeKey verified.notificationUUID) now = false →
      (webhookHandler deps request store now).response = ⟨200, { ok := true }⟩ ∧
      (webhookHandler deps request store now).pushCalls = 1 ∧
      (webhookHandler deps request store now).store
          (getDedupeKey verified.notificationUUID)
        = some ("1", now + config.dedupeTtlSeconds)) ∧
    (∀ (deps : WebhookDeps) (request : WebhookRequest) (store : RedisStore)
        (now : Int) (config : AppConfig) (verified : VerifiedNotification)
        (payload : String),
      deps.loadConfig = .ok config →
      request.method = some "POST" →
      request.secret = some config.webhookSecret →
      request.signedPayload = some payload →
      deps.verifyNotification = .ok verified →
      classifyNotificationType verified.notificationType ≠ .IGNORE →
      deps.dedupeStoreFails = false →
      redisKeyLive store (getDedupeKey verified.notificationUUID) now = true →
      (webhookHandler deps request store now).response
          = ⟨200, { ok := true, deduped := true }⟩ ∧
      (webhookHandler deps request store now).pushCalls = 0) ∧
    (∀ (deps : WebhookDeps) (request : WebhookRequest) (store : RedisStore)
        (now : Int) (config : AppConfig) (verified : VerifiedNotification)
        (payload : String),
      deps.loadConfig = .ok config →
      request.method = some "POST" →
      request.secret = some config.webhookSecret →
      request.signedPayload = some payload →
      deps.verifyNotification = .ok verified →
      classifyNotificationType verified.notificationType = .IGNORE →
      (webhookHandler deps request store now).response
          = ⟨200, { ok := true, ignored := true }⟩ ∧
      (webhookHandler deps request store now).markCalls = 0 ∧
      (webhookHandler deps request store now).pushCalls = 0 ∧
      (webhookHandler deps request store now).store = store) := by
  refine ⟨?_, ?_, ?_⟩ <;>
    intro deps request store now config verified payload
      hConfig hMethod hSecret hPayload hVerify hClass
  · intro hDedupe hPush hFresh
    unfold webhookHandler
    rw [hMethod, hConfig, hSecret, hPayload, hVerify]
    simp only [markNotificationAsNew, redisSetNxEx, hFresh, hDedupe, hPush,
      if_neg hClass, Bool.false_eq_true, if_false, Bool.not_true, Bool.not_false]
    simp [hClass]
  · intro hDedupe hLive
    unfold webhookHandler
    rw [hMethod, hConfig, hSecret, hPayload, hVerify]
    simp only [markNotificationAsNew, redisSetNxEx, hLive, hDedupe,
      if_neg hClass, Bool.false_eq_true, if_false]
    simp [hClass]
  · unfold webhookHandler
    rw [hMethod, hConfig, hSecret, hPayload, hVerify]
    simp [hClass]

def testVerifiedPurchase : VerifiedNotification :=
  { notificationUUID := "uuid-1"
    notificationType := "SUBSCRIBED"
    environment := "Sandbox"
    bundleId := "com.example.app"
    appAppleId := 1234567890
    pushoverUserKey := "pushover-user-key"
    transactionInfo := some { productId := some "pro_monthly"
                              transactionId := some "1000001234567890" } }

def testVerifiedIgnored : VerifiedNotification :=
  { notificationUUID := "uuid-ignore"
    notificationType := "DID_CHANGE_RENEWAL_STATUS"
    environment := "Production"
    bundleId := "com.example.app"
    appAppleId := 1234567890
    pushoverUserKey := "pushover-user-key" }

def testRequest : WebhookRequest :=
  { method := some "POST"
    secret := some "super-secret"
    signedPayload := some "jws-data" }

def testDeps : WebhookDeps :=
  { loadConfig := .ok testConfig
    verifyNotification := .ok testVerifiedPurchase }

def testDepsIgnored : WebhookDeps :=
  { loadConfig := .ok testConfig
    verifyNotification := .ok testVerifiedIgnored }

/-- Store in which the test UUID is already marked. -/
def liveStore : RedisStore :=
  fun k => if k = getDedupeKey "uuid-1" then some ("1", 2592000) else none

theorem webhook_terminal_outcomes_witness :
    (redisKeyLive emptyStore (getDedupeKey testVerifiedPurchase.notificationUUID) 0 = false ∧
     (webhookHandler testDeps testRequest emptyStore 0).response = ⟨200, { ok := true }⟩ ∧
     (webhookHandler testDeps testRequest emptyStore 0).pushCalls = 1 ∧
     (webhookHandler testDeps testRequest emptyStore 0).store
         (getDedupeKey testVerifiedPurchase.notificationUUID)
       = some ("1", 0 + testConfig.dedupeTtlSeconds)) ∧
    (redisKeyLive liveStore (getDedupeKey testVerifiedPurchase.notificationUUID) 0 = true ∧
     (webhookHandler testDeps testRequest liveStore 0).response
         = ⟨200, { ok := true, deduped := true }⟩ ∧
     (webhookHandler testDeps testRequest liveStore 0).pushCalls = 0) ∧
    (classifyNotificationType testVerifiedIgnored.notificationType = .IGNORE ∧
     (webhookHandler testDepsIgnored testRequest emptyStore 0).response
         = ⟨200, { ok := true, ignored := true }⟩ ∧
     (webhookHandler testDepsIgnored testRequest emptyStore 0).markCalls = 0 ∧
     (webhookHandler testDepsIgnored testRequest emptyStore 0).pushCalls = 0 ∧
     (webhookHandler testDepsIgnored testRequest emptyStore 0).store = emptyStore) :=
  ⟨⟨by decide,
    webhook_terminal_outcomes.1 testDeps testRequest emptyStore 0 testConfig
      testVerifiedPurchase "jws-data" rfl rfl rfl rfl rfl (by decide) rfl rfl (by decide)⟩,
   ⟨by decide,
    webhook_terminal_outcomes.2.1 testDeps testRequest liveStore 0 testConfig
      testVerifiedPurchase "jws-data" rfl rfl rfl rfl rfl (by decide) rfl (by decide)⟩,
   ⟨by decide,
    webhook_terminal_outcomes.2.2 testDepsIgnored testRequest emptyStore 0 testConfig
      testVerifiedIgnored "jws-data" rfl rfl rfl rfl rfl (by decide)⟩⟩

/-- C7: if the dedup store call fails, the pipeline terminates 500
internal_error with no push sent and no store change — a store failure is
never treated as "not a duplicate" followed by delivery. -/
theorem dedupe_failure_is_infra_error (deps : WebhookDeps)
    (request : WebhookRequest) (store : RedisStore) (now : Int)
    (config : AppConfig) (verified : VerifiedNotification) (payload : String)
    (hConfig : deps.loadConfig = .ok config)
    (hMethod : request.method = some "POST")
    (hSecret : request.secret = some config.webhookSecret)
    (hPayload : request.signedPayload = some payload)
    (hVerify : deps.verifyNotification = .ok verified)
    (hClass : classifyNotificationType verified.notificationType ≠ .IGNORE)
    (hDedupe : deps.dedupeStoreFails = true) :
    (webhookHandler deps request store now).response
        = ⟨500, { ok := false, error := some "internal_error" }⟩ ∧
    (webhookHandler deps request store now).pushCalls = 0 ∧
    (webhookHandler deps request store now).sentMessages = [] ∧
    (webhookHandler deps request store now).store = store := by
  unfold webhookHandler
  rw [hMethod, hConfig, hSecret, hPayload, hVerify]
  simp [hClass, hDedupe]

def testDepsDedupeFails : WebhookDeps :=
  { loadConfig := .ok testConfig
    verifyNotification := .ok testVerifiedPurchase
    dedupeStoreFails := true }

theorem dedupe_failure_is_infra_error_witness :
    testDepsDedupeFails.dedupeStoreFails = true ∧
    ((webhookHandler testDepsDedupeFails testRequest emptyStore 0).response
         = ⟨500, { ok := false, error := some "internal_error" }⟩ ∧
     (webhookHandler testDepsDedupeFails testRequest emptyStore 0).pushCalls = 0 ∧
     (webhookHandler testDepsDedupeFails testRequest emptyStore 0).sentMessages = [] ∧
     (webhookHandler testDepsDedupeFails testRequest emptyStore 0).store = emptyStore) :=
  ⟨rfl,
   dedupe_failure_is_infra_error testDepsDedupeFails testRequest emptyStore 0
     testConfig testVerifiedPurchase "jws-data" rfl rfl rfl rfl rfl (by decide) rfl⟩

theorem hintToString_ne_empty (h : SubscriptionLifecycleHint) :
    hintToString h ≠ "" := by
  cases h <;> decide

/-- C6: for a new, actionable notification the lifecycle-aware orchestrator
consults the Lifecycle State Store between the dedup check and the push send
(the call trace is exactly mark, lifecycle, push), terminates 200 PUSHED with
one delivered message for every lifecycle-store outcome — including a store
failure, which therefore never changes the terminal status or prevents
delivery — and when a hint is produced it is attached to the alert as the
`lifecycle=` field. -/
theorem lifecycle_best_effort (deps : WebhookDepsL) (request : WebhookRequest)
    (store : RedisStore) (now : Int) (config : AppConfig)
    (verified : VerifiedNotification) (payload : String)
    (hConfig : deps.loadConfig = .ok config)
    (hMethod : request.method = some "POST")
    (hSecret : request.secret = some config.webhookSecret)
    (hPayload : request.signedPayload = some payload)
    (hVerify : deps.verifyNotification = .ok verified)
    (hClass : classifyNotificationType verified.notificationType ≠ .IGNORE)
    (hDedupe : deps.dedupeStoreFails = false)
    (hPush : deps.pushoverFails = false)
    (hFresh : redisKeyLive store (getDedupeKey verified.notificationUUID) now = false) :
    (webhookHandlerWithLifecycle deps request store now).events
        = [.markCall, .lifecycleCall, .pushCall] ∧
    (webhookHandlerWithLifecycle deps request store now).response
        = ⟨200, { ok := true }⟩ ∧
    (webhookHandlerWithLifecycle deps request store now).sentMessages.length = 1 ∧
    (∀ h, deps.lifecycleResult = .ok (some h) →
      (webhookHandlerWithLifecycle deps request store now).sentMessages
        = [buildPushoverMessage (lifecycleMessageInput
            (classifyNotificationType verified.notificationType) verified (some h))] ∧
      ("lifecycle=" ++ hintToString h) ∈ buildPushoverParts
        (lifecycleMessageInput (classifyNotificationType verified.notificationType)
          verified (some h))) := by
  unfold webhookHandlerWithLifecycle
  rw [hMethod, hConfig, hSecret, hPayload, hVerify]
  simp only [markNotificationAsNew, redisSetNxEx, hFresh, hDedupe, hPush,
    if_neg hClass, Bool.false_eq_true, if_false, Bool.not_true, Bool.not_false]
  refine ⟨by simp [hClass], by simp [hClass], by simp [hClass], ?_⟩
  intro h hLR
  constructor
  · simp [hClass, hLR]
  · simp [buildPushoverParts, optionalMessagePart, lifecycleMessageInput,
      hintToString_ne_empty h]

def testDepsLifecycleOk : WebhookDepsL :=
  { loadConfig := .ok testConfig
    verifyNotification := .ok testVerifiedPurchase
    lifecycleResult := .ok (some .FIRST_PAID_AFTER_TRIAL) }

def testDepsLifecycleFails : WebhookDepsL :=
  { loadConfig := .ok testConfig
    verifyNotification := .ok testVerifiedPurchase
    lifecycleResult := .error "upstash down" }

theorem lifecycle_best_effort_witness :
    (redisKeyLive emptyStore (getDedupeKey testVerifiedPurchase.notificationUUID) 0
        = false ∧
     (webhookHandlerWithLifecycle testDepsLifecycleFails testRequest emptyStore 0).events
        = [.markCall, .lifecycleCall, .pushCall] ∧
     (webhookHandlerWithLifecycle testDepsLifecycleFails testRequest emptyStore 0).response
        = ⟨200, { ok := true }⟩ ∧
     (webhookHandlerWithLifecycle testDepsLifecycleFails testRequest emptyStore 0).sentMessages.length
        = 1) ∧
    ((webhookHandlerWithLifecycle testDepsLifecycleOk testRequest emptyStore 0).sentMessages
        = [buildPushoverMessage (lifecycleMessageInput
            (classifyNotificationType testVerifiedPurchase.notificationType)
            testVerifiedPurchase (some .FIRST_PAID_AFTER_TRIAL))] ∧
     ("lifecycle=" ++ hintToString .FIRST_PAID_AFTER_TRIAL) ∈ buildPushoverParts
        (lifecycleMessageInput (classifyNotificationType testVerifiedPurchase.notificationType)
          testVerifiedPurchase (some .FIRST_PAID_AFTER_TRIAL))) :=
  ⟨⟨by decide,
    (lifecycle_best_effort testDepsLifecycleFails testRequest emptyStore 0 testConfig
        testVerifiedPurchase "jws-data" rfl rfl rfl rfl rfl (by decide) rfl rfl
        (by decide)).1,
    (lifecycle_best_effort testDepsLifecycleFails testRequest emptyStore 0 testConfig
        testVerifiedPurchase "jws-data" rfl rfl rfl rfl rfl (by decide) rfl rfl
        (by decide)).2.1,
    (lifecycle_best_effort testDepsLifecycleFails testRequest emptyStore 0 testConfig
        testVerifiedPurchase "jws-data" rfl rfl rfl rfl rfl (by decide) rfl rfl
        (by decide)).2.2.1⟩,
   (lifecycle_best_effort testDepsLifecycleOk testRequest emptyStore 0 testConfig
        testVerifiedPurchase "jws-data" rfl rfl rfl rfl rfl (by decide) rfl rfl
        (by decide)).2.2.2 .FIRST_PAID_AFTER_TRIAL rfl⟩

/-- Tenants whose iteration merely falls through (`skip`) only update the
recorded last error: the traversal continues on the remaining tenants. -/
theorem verifyGo_of_prefix_skips (factory : VerifierFactory)
    (extract : String → Option String) (payload : String)
    (pre rest : List AppleAppConfig) :
    ∀ le, (∀ a ∈ pre, ∃ e, tryApp factory extract a payload = .skip e) →
    ∃ le2, verifyAppleNotificationGo factory extract payload (pre ++ rest) le
      = verifyAppleNotificationGo factory extract payload rest le2 := by
  induction pre with
  | nil => exact fun le _ => ⟨le, rfl⟩
  | cons a pre ih =>
    intro le hpre
    obtain ⟨e, he⟩ := hpre a (List.mem_cons_self a pre)
    have hrest := fun b hb => hpre b (List.mem_cons_of_mem a hb)
    cases e with
    | none =>
      obtain ⟨le2, h2⟩ := ih le hrest
      refine ⟨le2, ?_⟩
      rw [List.cons_append]
      simp only [verifyAppleNotificationGo, he]
      exact h2
    | some x =>
      obtain ⟨le2, h2⟩ := ih (some x) hrest
      refine ⟨le2, ?_⟩
      rw [List.cons_append]
      simp only [verifyAppleNotificationGo, he]
      exact h2

/-- C3: a tenant pinned to an explicit bundle id rejects an envelope that
verifies cryptographically under its verifier pair but decodes to a different
bundle id: once that tenant is reached, `verifyAppleNotification` fails with
an error instead of returning a `VerifiedNotification`. -/
theorem bundle_binding (factory : VerifierFactory)
    (extract : String → Option String) (config : AppConfig)
    (pre post : List AppleAppConfig) (app : AppleAppConfig) (payload : String)
    (b : String) (v : SignedDataVerifier) (p : NotificationPayload)
    (u ty decodedBundleId : String)
    (happs : config.appleApps = pre ++ app :: post)
    (hpre : ∀ a ∈ pre, ∃ e, tryApp factory extract a payload = .skip e)
    (hbundle : app.bundleId = some b)
    (hverified : (attemptEnvironments factory b app.appAppleId payload).1 = some (v, p))
    (hu : p.notificationUUID = some u) (hune : u ≠ "")
    (hty : p.notificationType = some ty) (htyne : ty ≠ "")
    (hdec : (match optionalNonEmptyString p.bundleId with
             | some x => some x
             | none => optionalNonEmptyString (p.data.bind (·.bundleId)))
        = some decodedBundleId)
    (hne : decodedBundleId ≠ b) :
    ∃ e, verifyAppleNotification factory extract payload config = .error e := by
  have htry : tryApp factory extract app payload
      = .abort ("Bundle ID mismatch. Expected " ++ b ++ " but got "
          ++ decodedBundleId ++ ".") := by
    unfold tryApp
    rcases hAeq : attemptEnvironments factory b app.appAppleId payload with ⟨A1, A2⟩
    rw [hAeq] at hverified
    simp only at hverified
    subst hverified
    simp only [hbundle, hAeq, ensureString, hu, hty, hdec, ensureBundleIdMatches,
      if_neg hune, if_neg htyne, if_pos hne]
  obtain ⟨le2, hgo⟩ := verifyGo_of_prefix_skips factory extract payload pre
    (app :: post) none hpre
  refine ⟨"Bundle ID mismatch. Expected " ++ b ++ " but got "
      ++ decodedBundleId ++ ".", ?_⟩
  unfold verifyAppleNotification
  rw [happs, hgo]
  simp only [verifyAppleNotificationGo, htry]

/-- C4: the resolver tries production before sandbox and the first
environment whose verification and decoding succeeds wins; in particular a
tenant whose production verification fails but whose sandbox verification
succeeds (with a consistent payload) yields a `VerifiedNotification` rather
than an error. -/
theorem sandbox_fallback (factory : VerifierFactory)
    (extract : String → Option String) (config : AppConfig)
    (pre post : List AppleAppConfig) (app : AppleAppConfig) (payload : String)
    (b : String) (p : NotificationPayload) (u ty e1 : String)
    (happs : config.appleApps = pre ++ app :: post)
    (hpre : ∀ a ∈ pre, ∃ e, tryApp factory extract a payload = .skip e)
    (hbundle : app.bundleId = some b)
    (hprod : (factory b app.appAppleId .production).verifyAndDecodeNotification payload
        = .error e1)
    (hsand : (factory b app.appAppleId .sandbox).verifyAndDecodeNotification payload
        = .ok p)
    (hu : p.notificationUUID = some u) (hune : u ≠ "")
    (hty : p.notificationType = some ty) (htyne : ty ≠ "")
    (hb : optionalNonEmptyString p.bundleId = some b)
    (hsti : p.data.bind (·.signedTransactionInfo) = none) :
    verifyAppleNotification factory extract payload config =
      .ok { notificationUUID := u
            notificationType := ty
            subtype := p.subtype
            environment :=
              (match optionalNonEmptyString p.environment with
               | some e => some e
               | none => optionalNonEmptyString (p.data.bind (·.environment))).getD
                "UNKNOWN"
            bundleId := b
            appAppleId := app.appAppleId
            pushoverUserKey := app.pushoverUserKey
            pushoverDevice := app.pushoverDevice
            signedTransactionInfo := none
            transactionInfo := none } ∧
    (∀ (b2 : String) (aid : Int) (p2 : NotificationPayload),
      (factory b2 aid .production).verifyAndDecodeNotification payload = .ok p2 →
      (attemptEnvironments factory b2 aid payload).1
        = some (factory b2 aid .production, p2)) := by
  constructor
  · have hatt : attemptEnvironments factory b app.appAppleId payload
        = (some (factory b app.appAppleId .sandbox, p), some e1) := by
      simp only [attemptEnvironments, hprod, hsand]
    have htry : tryApp factory extract app payload
        = .success
            { notificationUUID := u
              notificationType := ty
              subtype := p.subtype
              environment :=
                (match optionalNonEmptyString p.environment with
                 | some e => some e
                 | none => optionalNonEmptyString (p.data.bind (·.environment))).getD
                  "UNKNOWN"
              bundleId := b
              appAppleId := app.appAppleId
              pushoverUserKey := app.pushoverUserKey
              pushoverDevice := app.pushoverDevice
              signedTransactionInfo := none
              transactionInfo := none } := by
      unfold tryApp
      simp only [hbundle, hatt, ensureString, hu, hty, hb, if_neg hune, if_neg htyne,
        ensureBundleIdMatches, if_neg (by simp : ¬ b ≠ b), hsti, decodeTransactionInfo]
    obtain ⟨le2, hgo⟩ := verifyGo_of_prefix_skips factory extract payload pre
      (app :: post) none hpre
    unfold verifyAppleNotification
    rw [happs, hgo]
    simp only [verifyAppleNotificationGo, htry]
  · intro b2 aid p2 hok
    simp only [attemptEnvironments, hok]

/-- Decoded payload carrying a bundle id other than the pinned tenant. -/
def mismatchPayloadDecoded : NotificationPayload :=
  { notificationUUID := some "uuid-2"
    notificationType := some "SUBSCRIBED"
    bundleId := some "com.other.app"
    environment := some "Production" }

/-- Factory whose verifiers all accept the envelope and decode it to
`mismatchPayloadDecoded`. -/
def mismatchFactory : VerifierFactory := fun _ _ _ =>
  { verifyAndDecodeNotification := fun _ => .ok mismatchPayloadDecoded
    verifyAndDecodeTransaction := fun _ => .error "unexpected transaction" }

def noExtract : String → Option String := fun _ => none

def testAppPinned : AppleAppConfig :=
  { bundleId := some "com.example.app"
    appAppleId := 1234567890
    pushoverUserKey := "pushover-user-key" }

theorem bundle_binding_witness :
    ("com.other.app" : String) ≠ "com.example.app" ∧
    ∃ e, verifyAppleNotification mismatchFactory noExtract "jws-data" testConfig
      = .error e :=
  ⟨by decide,
   bundle_binding mismatchFactory noExtract testConfig [] [] testAppPinned
     "jws-data" "com.example.app"
     (mismatchFactory "com.example.app" 1234567890 .production)
     mismatchPayloadDecoded "uuid-2" "SUBSCRIBED" "com.other.app"
     rfl (by intro a ha; simp at ha) rfl rfl rfl (by decide) rfl (by decide)
     (by decide) (by decide)⟩

/-- Decoded payload consistent with the pinned tenant. -/
def sandboxPayloadDecoded : NotificationPayload :=
  { notificationUUID := some "uuid-3"
    notificationType := some "SUBSCRIBED"
    bundleId := some "com.example.app"
    environment := some "Sandbox" }

/-- Factory whose production verifier rejects the envelope and whose sandbox
verifier accepts it. -/
def fallbackFactory : VerifierFactory := fun _ _ env =>
  { verifyAndDecodeNotification := fun _ =>
      match env with
      | .production => .error "verification failed under production"
      | .sandbox => .ok sandboxPayloadDecoded
    verifyAndDecodeTransaction := fun _ => .error "unexpected transaction" }

theorem sandbox_fallback_witness :
    (fallbackFactory "com.example.app" 1234567890
        AppleEnvironment.production).verifyAndDecodeNotification "jws-data"
      = .error "verification failed under production" ∧
    verifyAppleNotification fallbackFactory noExtract "jws-data" testConfig =
      .ok { notificationUUID := "uuid-3"
            notificationType := "SUBSCRIBED"
            subtype := none
            environment := "Sandbox"
            bundleId := "com.example.app"
            appAppleId := 1234567890
            pushoverUserKey := "pushover-user-key"
            pushoverDevice := none
            signedTransactionInfo := none
            transactionInfo := none } :=
  ⟨rfl,
   (sandbox_fallback fallbackFactory noExtract testConfig [] [] testAppPinned
     "jws-data" "com.example.app" sandboxPayloadDecoded "uuid-3" "SUBSCRIBED"
     "verification failed under production"
     rfl (by intro a ha; simp at ha) rfl rfl rfl rfl (by decide) rfl (by decide)
     (by decide) rfl).1⟩
